import Mathlib

set_option maxHeartbeats 1000000

/-! # Verification of the Copilot code-review pipeline task

Shallow embedding of `CopilotCodeReviewV1/index.ts` (the Azure DevOps task
entry point) and of the context-fetch script `Get-AzureDevOpsPRChanges.ps1`.

The task's `run` function is modelled as a function from an environment
(the task inputs, pipeline variables, file system and subprocess outcomes)
to the ordered list of observable events it produces: subprocess spawns,
file writes and the final task result. Each TypeScript step is one stage
function; an early `return` after `tl.setResult` is modelled by ending the
trace with a `setResult` event. -/

namespace CopilotReview

/-- Result kinds of `tl.setResult` used by the task. -/
inductive TaskResult where
  | succeeded
  | failed
deriving DecidableEq, Repr

/-- Observable events of one task run, in order of occurrence. -/
inductive Event where
  | spawnSync (cmd : String) (args : List String)
  | spawnInstall (cmd : String) (args : List String)
  | spawnScript (command : String)
  | spawnReview (cmd : String) (args : List String)
  | writeFile (path content : String)
  | copyFile (src dst : String)
  | sigterm
  | setResult (r : TaskResult) (message : String)
deriving DecidableEq, Repr

/-- Outcome of a spawned child process: either it closes with an exit code,
or the spawn itself errors with a message. -/
inductive ProcExit where
  | code (c : Int)
  | errored (msg : String)
deriving DecidableEq, Repr

/-- Observable behaviour of the review subprocess: when (in milliseconds of
wall clock) it would settle, and how. -/
structure ReviewBehavior where
  endsAtMs : Nat
  outcome : ProcExit
deriving DecidableEq, Repr

/-! ### String primitives

The JS string operations the task uses, implemented by structural
recursion over the character list so that every concrete run of the model
evaluates inside the kernel. -/

/-- JS `trim`: strip leading and trailing whitespace. -/
def jsTrim (s : String) : String :=
  ⟨((s.data.dropWhile Char.isWhitespace).reverse.dropWhile Char.isWhitespace).reverse⟩

/-- JS `toLowerCase` (ASCII model). -/
def jsToLower (s : String) : String :=
  ⟨s.data.map Char.toLower⟩

/-- JS `toUpperCase` (ASCII model). -/
def jsToUpper (s : String) : String :=
  ⟨s.data.map Char.toUpper⟩

/-- JS `startsWith`. -/
def jsStartsWith (s pre : String) : Bool :=
  pre.data.isPrefixOf s.data

/-- Drop the first `n` characters. -/
def jsDrop (s : String) (n : Nat) : String :=
  ⟨s.data.drop n⟩

/-- Longest prefix of characters satisfying `p`. -/
def jsTakeWhile (p : Char → Bool) (s : String) : String :=
  ⟨s.data.takeWhile p⟩

/-- JS `includes` of a single character. -/
def jsContainsChar (s : String) (c : Char) : Bool :=
  s.data.contains c

/-- Character count. -/
def strLen (s : String) : Nat :=
  s.data.length

/-- Splitter for `jsSplitOn`: fuel-indexed so the recursion is structural;
the fuel is always at least the number of remaining characters plus one. -/
def splitOnAuxL (sep : List Char) : Nat → List Char → List Char → List (List Char)
  | 0, rest, acc => [acc.reverse ++ rest]
  | Nat.succ fuel, l, acc =>
    match l with
    | [] => [acc.reverse]
    | c :: cs =>
      if sep.isPrefixOf (c :: cs) then
        acc.reverse :: splitOnAuxL sep fuel (List.drop (sep.length - 1) cs) []
      else
        splitOnAuxL sep fuel cs (c :: acc)

/-- JS `split` with a non-empty string separator (agrees with
`String.splitOn` on every separator this model uses). -/
def jsSplitOn (s sep : String) : List String :=
  if sep.data.isEmpty then [s]
  else (splitOnAuxL sep.data (s.data.length + 1) s.data []).map (fun l => ⟨l⟩)

/-- Join a list of strings with a separator. -/
def jsIntercalate (sep : String) (ls : List String) : String :=
  ⟨List.intercalate sep.data (ls.map String.data)⟩

/-- `tl.getInput` read through a JS truthiness guard: every use in the task
is of the form `if (x)`, where both `undefined` and the empty string are
falsy, so an empty value is collapsed to `none`. -/
def getInput (inputs : String → Option String) (name : String) : Option String :=
  match inputs name with
  | some s => if s = "" then none else some s
  | none => none

/-- `tl.getVariable` read through the same JS truthiness guard. -/
def getVariable (pipelineVars : String → Option String) (name : String) : Option String :=
  match pipelineVars name with
  | some s => if s = "" then none else some s
  | none => none

/-- `tl.getBoolInput`: true exactly when the input value upper-cases to TRUE. -/
def getBoolInput (inputs : String → Option String) (name : String) : Bool :=
  jsToUpper ((getInput inputs name).getD "") = "TRUE"

/-- Digits-to-number accumulator used by the `parseInt` model. -/
def parseDigits (s : String) : Nat :=
  s.data.foldl (fun n c => n * 10 + (c.toNat - 48)) 0

/-- JS `parseInt(s, 10)`: trim, optional sign, longest digit prefix;
`none` models `NaN`. -/
def jsParseInt (s : String) : Option Int :=
  let t := jsTrim s
  let signRest : Int × String :=
    if jsStartsWith t "-" then (-1, jsDrop t 1)
    else if jsStartsWith t "+" then (1, jsDrop t 1)
    else (1, t)
  let ds := jsTakeWhile Char.isDigit signRest.2
  if ds = "" then none else some (signRest.1 * (parseDigits ds : Int))

/-- `getNodeMajorVersion`: the major version parsed from `process.version`
via the anchored pattern v-then-digits, 0 when it does not match. -/
def nodeMajorOf (version : String) : Nat :=
  if jsStartsWith version "v" then
    let ds := jsTakeWhile Char.isDigit (jsDrop version 1)
    if ds = "" then 0 else parseDigits ds
  else 0

/-- JS `String.prototype.replace` with a string pattern: replaces only the
first occurrence of `pat`. -/
def replaceFirst (s pat repl : String) : String :=
  match jsSplitOn s pat with
  | [] => s
  | [x] => x
  | x :: rest => x ++ repl ++ jsIntercalate pat rest

/-- The regex search `uri.match(https dev azure com slash capture-of-non-slash)`:
at each occurrence of the literal prefix, left to right, the capture is the
maximal run of non-slash characters after it; the first position with a
non-empty capture wins. `parts` is `uri.splitOn pre`. -/
def captureAfterList (pre : String) : List String → Option String
  | [] => none
  | [_] => none
  | _ :: rest =>
    let tailStr := jsIntercalate pre rest
    let cap := jsTakeWhile (· ≠ '/') tailStr
    if cap ≠ "" then some cap else captureAfterList pre rest

/-- The `dev.azure.com` organization capture of `index.ts` line 136. -/
def captureDevAzure (uri : String) : Option String :=
  captureAfterList "https://dev.azure.com/" (jsSplitOn uri "https://dev.azure.com/")

/-- The `visualstudio.com` capture of `index.ts` line 137: after an occurrence
of the scheme literal, a maximal non-dot run followed by the literal
`.visualstudio.com`. -/
def captureVstsList : List String → Option String
  | [] => none
  | [_] => none
  | _ :: rest =>
    let tailStr := jsIntercalate "https://" rest
    let cap := jsTakeWhile (· ≠ '.') tailStr
    if cap ≠ "" ∧ jsStartsWith (jsDrop tailStr (strLen cap)) ".visualstudio.com" then some cap
    else captureVstsList rest

/-- The `visualstudio.com` organization capture of `index.ts` line 137. -/
def captureVsts (uri : String) : Option String :=
  captureVstsList (jsSplitOn uri "https://")

/-- The environment of one task run: inputs, pipeline variables, process
facts, file system and the outcomes of every subprocess the run may spawn. -/
structure RunEnv where
  inputs : String → Option String
  pipelineVars : String → Option String
  pwshOk : Bool
  windows : Bool
  nodeVersion : String
  dirname : String
  cwd : String
  copilotOk : Bool
  installOutcome : ProcExit
  script1Outcome : ProcExit
  script2Outcome : ProcExit
  isRegularFile : String → Bool
  readFile : String → String
  review : ReviewBehavior

/-- The configuration resolved by the input-resolution steps, carried into
the later stages. -/
structure Config where
  azureDevOpsToken : String
  azureDevOpsAuthType : String
  organization : String
  project : String
  repository : String
  pullRequestId : String
  timeoutMinutes : Option Int
  model : Option String
  promptFile : Option String
  prompt : Option String

/-! ## Failure and status messages, verbatim from `index.ts`
(messages thrown and caught by the top-level handler carry the
`Task failed: ` prefix added at line 321). -/

def msgPwshRequired : String :=
  "PowerShell 7 (pwsh) is required but not found. Please install PowerShell 7 or later. Visit https://docs.microsoft.com/en-us/powershell/scripting/install/installing-powershell for installation instructions."

def msgNodeRequired (version : String) : String :=
  "Node.js 22 or later is required on Linux for GitHub Copilot CLI installation. Current version: " ++ version ++ ". Please upgrade Node.js to version 22 or later."

def msgSkippedAuthor : String :=
  "Skipped: PR author not in configured authors list."

def msgGithubPatRequired : String :=
  "Task failed: Input required: githubPat"

def msgSystemTokenMissing : String :=
  "System.AccessToken is not available. Ensure the pipeline has access to the OAuth token. In YAML pipelines, you may need to explicitly map it using env: SYSTEM_ACCESSTOKEN: $(System.AccessToken)"

def msgAuthRequired : String :=
  "Azure DevOps authentication is required. Either provide an Azure DevOps PAT or enable \"Use System Access Token\"."

def msgOrgRequired : String :=
  "Organization is required. Either provide it as an input or ensure System.CollectionUri is available."

def msgProjectRequired : String :=
  "Project is required. Either provide it as an input or ensure System.TeamProject is available."

def msgRepoRequired : String :=
  "Repository is required. Either provide it as an input or ensure Build.Repository.Name is available."

def msgPrIdRequired : String :=
  "Pull Request ID is required. Either provide it as an input or run this task as part of a PR validation build."

def msgPromptQuoteInline : String :=
  "Custom prompts cannot include double quotes (\"). Please remove any double quotes from your prompt input."

def msgPromptFileEmpty (f : String) : String :=
  "Prompt file is empty: " ++ f

def msgPromptQuoteFile (f : String) : String :=
  "Custom prompts cannot include double quotes (\"). Please remove any double quotes from the prompt file: " ++ f

def msgSuccess : String :=
  "Copilot code review completed."

/-! ## The review-CLI invocation (`runCopilotCli`, lines 401 to 449) -/

/-- A single-quote character, used in the PowerShell command text. -/
def sq : String := String.singleton (Char.ofNat 39)

/-- The PowerShell command built by `runCopilotCli` (lines 405 to 412).
It is a function of the prompt-file path and the model selector only; the
prompt text itself is read by `Get-Content` inside PowerShell at run time. -/
def buildPsCommand (promptFilePath : String) (model : Option String) : String :=
  let copilotCmd0 := "copilot -p \"$prompt\" --allow-all-paths --allow-all-tools --deny-tool " ++ sq ++ "shell(git push)" ++ sq
  let copilotCmd := match model with
    | some m => copilotCmd0 ++ " --model " ++ m
    | none => copilotCmd0
  let printPrompt := "Write-Host ========== START PROMPT ==========; Write-Host $prompt; Write-Host ========== END PROMPT ==========;"
  let envRefresh := "$env:Path = [System.Environment]::GetEnvironmentVariable(\"Path\",\"Machine\") + \";\" + [System.Environment]::GetEnvironmentVariable(\"Path\",\"User\");"
  envRefresh ++ " $prompt = Get-Content -Path " ++ sq ++ promptFilePath ++ sq ++ " -Raw; " ++ printPrompt ++ " " ++ copilotCmd

/-- How the race between the review subprocess and the timeout settles. -/
inductive ReviewResult where
  | ok
  | error (msg : String)
deriving DecidableEq, Repr

/-- Node `setTimeout` delay semantics: a missing (NaN) or sub-millisecond
delay is clamped to 1 ms. -/
def jsDelay (timeoutMs : Option Int) : Int :=
  match timeoutMs with
  | some d => if 1 ≤ d then d else 1
  | none => 1

/-- The minutes figure printed in the timeout message (`timeoutMs / 60000`);
NaN stays NaN in JS arithmetic. -/
def timeoutMinutesDisplay (timeoutMs : Option Int) : String :=
  match timeoutMs with
  | some d => toString (d / 60000)
  | none => "NaN"

/-- The race of `runCopilotCli` (lines 428 to 447): whichever of the timer
and the subprocess settles first decides the promise; on a timer win the
subprocess is sent SIGTERM (the returned flag). -/
def runCopilotCliModel (timeoutMs : Option Int) (b : ReviewBehavior) : ReviewResult × Bool :=
  if (b.endsAtMs : Int) < jsDelay timeoutMs then
    match b.outcome with
    | .code c =>
      if c = 0 then (.ok, false)
      else (.error ("Copilot CLI exited with code: " ++ toString c), false)
    | .errored m => (.error ("Failed to run Copilot CLI: " ++ m), false)
  else
    (.error ("Copilot review timed out after " ++ timeoutMinutesDisplay timeoutMs ++ " minutes"), true)

/-! ## The stages of `run` (`index.ts` lines 38 to 323) -/

/-- `System.DefaultWorkingDirectory` with the `process.cwd()` fallback
(line 203). -/
def workingDirOf (e : RunEnv) : String :=
  (getVariable e.pipelineVars "System.DefaultWorkingDirectory").getD e.cwd

/-- Step 4/4 of `run`sends the review command (lines 310 to 312 and
`runCopilotCli`): spawn `pwsh -NoProfile -Command`, then settle the race. -/
def stageReview (e : RunEnv) (acc : List Event) (c : Config) (promptFilePath : String) : List Event :=
  let psCommand := buildPsCommand promptFilePath c.model
  let acc := acc ++ [Event.spawnReview "pwsh" ["-NoProfile", "-Command", psCommand]]
  let timeoutMs : Option Int := c.timeoutMinutes.map (· * 60000)
  match runCopilotCliModel timeoutMs e.review with
  | (.ok, _) => acc ++ [Event.setResult .succeeded msgSuccess]
  | (.error m, sig) =>
    (if sig then acc ++ [Event.sigterm] else acc) ++ [Event.setResult .failed ("Task failed: " ++ m)]

/-- Lines 299 to 308: copy the two comment-posting scripts into the working
directory, then run the review. -/
def stageCopy (e : RunEnv) (acc : List Event) (c : Config) (promptFilePath : String) : List Event :=
  let scriptsDir := e.dirname ++ "/scripts"
  let wd := workingDirOf e
  let acc := acc ++
    [Event.copyFile (scriptsDir ++ "/Add-AzureDevOpsPRComment.ps1") (wd ++ "/Add-AzureDevOpsPRComment.ps1"),
     Event.copyFile (scriptsDir ++ "/Add-CopilotComment.ps1") (wd ++ "/Add-CopilotComment.ps1")]
  stageReview e acc c promptFilePath

/-- Result of the prompt-selection logic of lines 251 to 280. -/
inductive PromptSelection where
  | failQuoteInline
  | fileEmpty (f : String)
  | failQuoteFile (f : String)
  | custom (text : String)
  | bundledDefault
deriving DecidableEq, Repr

/-- Lines 251 to 280: first-match prompt selection. The inline `prompt`
input is examined first; otherwise the `promptFile` input is used when it
names an existing regular file; otherwise the bundled default applies. -/
def selectPrompt (prompt promptFile : Option String) (isFile : String → Bool)
    (readFile : String → String) : PromptSelection :=
  match prompt with
  | some p =>
    if jsContainsChar p '"' then .failQuoteInline else .custom p
  | none =>
    match promptFile with
    | some f =>
      if isFile f then
        let fileContent := jsTrim (readFile f)
        if fileContent = "" then .fileEmpty f
        else if jsContainsChar fileContent '"' then .failQuoteFile f
        else .custom fileContent
      else .bundledDefault
    | none => .bundledDefault

/-- Step 4/4, prompt assembly (lines 250 to 297): on a custom prompt, merge
it into the `prompt-custom.txt` template at the `%CUSTOMPROMPT%` placeholder
and write the result to `_copilot_prompt.txt` in the working directory; on
the default, point directly at the bundled `prompt.txt`. -/
def stagePrompt (e : RunEnv) (acc : List Event) (c : Config) : List Event :=
  let scriptsDir := e.dirname ++ "/scripts"
  let wd := workingDirOf e
  match selectPrompt c.prompt c.promptFile e.isRegularFile e.readFile with
  | .failQuoteInline => acc ++ [Event.setResult .failed msgPromptQuoteInline]
  | .fileEmpty f => acc ++ [Event.setResult .failed (msgPromptFileEmpty f)]
  | .failQuoteFile f => acc ++ [Event.setResult .failed (msgPromptQuoteFile f)]
  | .custom t =>
    let templateContent := e.readFile (scriptsDir ++ "/prompt-custom.txt")
    let mergedPrompt := replaceFirst templateContent "%CUSTOMPROMPT%" t
    let promptFilePath := wd ++ "/_copilot_prompt.txt"
    stageCopy e (acc ++ [Event.writeFile promptFilePath mergedPrompt]) c promptFilePath
  | .bundledDefault => stageCopy e acc c (scriptsDir ++ "/prompt.txt")

/-- `runPowerShellScript` (lines 376 to 399): the spawned shell command and
the error message (if any) its outcome produces. -/
def runPowerShellScriptModel (scriptPath : String) (args : List String) (outcome : ProcExit) :
    Event × Option String :=
  let command := "pwsh -NoProfile -File \"" ++ scriptPath ++ "\" " ++ jsIntercalate " " args
  (Event.spawnScript command,
   match outcome with
   | .code c => if c = 0 then none else some ("PowerShell script failed with exit code: " ++ toString c)
   | .errored m => some ("Failed to run PowerShell script: " ++ m))

/-- The argument list of both context-fetch script invocations
(lines 220 to 228 and 236 to 244). -/
def scriptArgs (c : Config) (outputFile : String) : List String :=
  ["-Token \"" ++ c.azureDevOpsToken ++ "\"",
   "-AuthType \"" ++ c.azureDevOpsAuthType ++ "\"",
   "-Organization \"" ++ c.organization ++ "\"",
   "-Project \"" ++ c.project ++ "\"",
   "-Repository \"" ++ c.repository ++ "\"",
   "-Id " ++ c.pullRequestId,
   "-OutputFile \"" ++ outputFile ++ "\""]

/-- Steps 2/4 and 3/4 (lines 215 to 245): fetch PR details, then iteration
changes, each via a PowerShell script whose non-zero exit fails the run. -/
def stageFetch (e : RunEnv) (acc : List Event) (c : Config) : List Event :=
  let scriptsDir := e.dirname ++ "/scripts"
  let wd := workingDirOf e
  let prDetailsOutput := wd ++ "/PR_Details.txt"
  let r1 := runPowerShellScriptModel (scriptsDir ++ "/Get-AzureDevOpsPR.ps1")
    (scriptArgs c prDetailsOutput) e.script1Outcome
  let acc := acc ++ [r1.1]
  match r1.2 with
  | some m => acc ++ [Event.setResult .failed ("Task failed: " ++ m)]
  | none =>
    let iterationDetailsOutput := wd ++ "/Iteration_Details.txt"
    let r2 := runPowerShellScriptModel (scriptsDir ++ "/Get-AzureDevOpsPRChanges.ps1")
      (scriptArgs c iterationDetailsOutput) e.script2Outcome
    let acc := acc ++ [r2.1]
    match r2.2 with
    | some m => acc ++ [Event.setResult .failed ("Task failed: " ++ m)]
    | none => stagePrompt e acc c

/-- Step 1/4 (lines 205 to 213 with `checkCopilotCli` and
`installCopilotCli`): probe the CLI, install it on a miss. -/
def stageTool (e : RunEnv) (acc : List Event) (c : Config) : List Event :=
  let acc := acc ++ [Event.spawnSync "copilot" ["--version"]]
  if e.copilotOk then stageFetch e acc c
  else
    let cmdArgs : String × List String :=
      if e.windows then
        ("winget", ["install", "GitHub.Copilot", "--silent", "--accept-package-agreements", "--accept-source-agreements"])
      else
        ("npm", ["install", "-g", "@github/copilot"])
    let acc := acc ++ [Event.spawnInstall cmdArgs.1 cmdArgs.2]
    match e.installOutcome with
    | .code cd =>
      if cd = 0 then stageFetch e acc c
      else acc ++ [Event.setResult .failed ("Task failed: Failed to install GitHub Copilot CLI. Exit code: " ++ toString cd)]
    | .errored m =>
      acc ++ [Event.setResult .failed ("Task failed: Failed to install GitHub Copilot CLI: " ++ m)]

/-- The timeout-minutes value of line 165:
`parseInt(tl.getInput(timeout) or 15, 10)`. -/
def resolvedTimeoutMinutes (e : RunEnv) : Option Int :=
  jsParseInt ((getInput e.inputs "timeout").getD "15")

/-- The pull request id of lines 164 to 173: the input, else the
`System.PullRequest.PullRequestId` variable. -/
def resolvedPullRequestId (e : RunEnv) : Option String :=
  match getInput e.inputs "pullRequestId" with
  | some p => some p
  | none => getVariable e.pipelineVars "System.PullRequest.PullRequestId"

/-- Lines 163 to 178: optional inputs, then the PR id requirement. -/
def stageOptional (e : RunEnv) (acc : List Event)
    (token authType organization project repository : String) : List Event :=
  match resolvedPullRequestId e with
  | none => acc ++ [Event.setResult .failed msgPrIdRequired]
  | some prId =>
    stageTool e acc
      { azureDevOpsToken := token
        azureDevOpsAuthType := authType
        organization := organization
        project := project
        repository := repository
        pullRequestId := prId
        timeoutMinutes := resolvedTimeoutMinutes e
        model := getInput e.inputs "model"
        promptFile := getInput e.inputs "promptFile"
        prompt := getInput e.inputs "prompt" }

/-- The organization value of lines 127 to 146: the input, else the regex
parse of `System.CollectionUri` (`dev.azure.com` form first, then the
`visualstudio.com` form). -/
def resolvedOrganization (e : RunEnv) : Option String :=
  match getInput e.inputs "organization" with
  | some o => some o
  | none =>
    match getVariable e.pipelineVars "System.CollectionUri" with
    | some uri =>
      match captureDevAzure uri with
      | some o => some o
      | none => captureVsts uri
    | none => none

/-- Lines 127 to 161: resolve the three identifiers; each missing value is
a fatal error, first missing wins. -/
def stageIdentifiers (e : RunEnv) (acc : List Event) (token authType : String) : List Event :=
  match resolvedOrganization e with
  | none => acc ++ [Event.setResult .failed msgOrgRequired]
  | some organization =>
    match getInput e.inputs "project" with
    | none => acc ++ [Event.setResult .failed msgProjectRequired]
    | some project =>
      match getInput e.inputs "repository" with
      | none => acc ++ [Event.setResult .failed msgRepoRequired]
      | some repository =>
        stageOptional e acc token authType organization project repository

/-- Lines 92 to 124: the required GitHub PAT, then the Azure DevOps
credential (System.AccessToken as Bearer, else PAT as Basic). -/
def stageCreds (e : RunEnv) (acc : List Event) : List Event :=
  match getInput e.inputs "githubPat" with
  | none => acc ++ [Event.setResult .failed msgGithubPatRequired]
  | some _ =>
    if getBoolInput e.inputs "useSystemAccessToken" then
      match getVariable e.pipelineVars "System.AccessToken" with
      | none => acc ++ [Event.setResult .failed msgSystemTokenMissing]
      | some systemToken => stageIdentifiers e acc systemToken "Bearer"
    else
      match getInput e.inputs "azureDevOpsPat" with
      | some pat => stageIdentifiers e acc pat "Basic"
      | none => acc ++ [Event.setResult .failed msgAuthRequired]

/-- Lines 66 to 90: the author filter, checked before any other processing.
The requester email (empty when the variable is unavailable) is lower-cased
and looked up in the trimmed, lower-cased comma-separated list. -/
def stageAuthorGate (e : RunEnv) (acc : List Event) : List Event :=
  match getInput e.inputs "authors" with
  | some authors =>
    let requestedForEmail := (getVariable e.pipelineVars "Build.RequestedForEmail").getD ""
    let authorList := (jsSplitOn authors ",").map (fun email => jsToLower (jsTrim email))
    let currentAuthor := jsToLower requestedForEmail
    if authorList.contains currentAuthor then stageCreds e acc
    else acc ++ [Event.setResult .succeeded msgSkippedAuthor]
  | none => stageCreds e acc

/-- `run` (lines 38 to 323): preflight (pwsh probe, Node version on
non-Windows), then the staged pipeline. -/
def run (e : RunEnv) : List Event :=
  let acc := [Event.spawnSync "pwsh" ["--version"]]
  if e.pwshOk = false then
    acc ++ [Event.setResult .failed msgPwshRequired]
  else if e.windows = false ∧ nodeMajorOf e.nodeVersion < 22 then
    acc ++ [Event.setResult .failed (msgNodeRequired e.nodeVersion)]
  else
    stageAuthorGate e acc

/-! ## The context-fetch script `Get-AzureDevOpsPRChanges.ps1`

The script's host-API calls go through `Invoke-AzureDevOpsApi`
(lines 100 to 126), which classifies an HTTP failure by status code,
writes one error message, and returns null; the main flow (lines 159 to
300) then decides per call whether to exit and with what code. -/

/-- An error message written by `Invoke-AzureDevOpsApi`, or the warning for
an empty iteration list. -/
inductive ApiMessage where
  | authFailed
  | notFound
  | generic (body : String) (status : Int)
  | warnNoIterations
deriving DecidableEq, Repr

/-- The text of each message, verbatim from the script. -/
def apiMessageText : ApiMessage → String
  | .authFailed => "Authentication failed. Please verify your PAT is valid and has appropriate permissions."
  | .notFound => "Resource not found. Please verify the organization, project, repository, and PR ID."
  | .generic body status => "API request failed: " ++ body ++ " (Status: " ++ toString status ++ ")"
  | .warnNoIterations => "No iterations found for this pull request."

/-- The status-code classification of `Invoke-AzureDevOpsApi`
(lines 115 to 123). -/
def classifyStatus (status : Int) (body : String) : ApiMessage :=
  if status = 401 then .authFailed
  else if status = 404 then .notFound
  else .generic body status

/-- Outcome of one REST call as seen by `Invoke-AzureDevOpsApi`. -/
inductive ApiOutcome (α : Type) where
  | ok (v : α)
  | httpError (status : Int) (body : String)
deriving DecidableEq, Repr

/-- `Invoke-AzureDevOpsApi`: the returned value (null on failure) and the
error message written on failure. -/
def invokeAzureDevOpsApi {α : Type} (r : ApiOutcome α) : Option α × List ApiMessage :=
  match r with
  | .ok v => (some v, [])
  | .httpError status body => (none, [classifyStatus status body])

/-- A pull-request iteration as consumed by the script; only the sort key
`id` participates in the latest-iteration selection. -/
structure Iteration where
  id : Int
deriving DecidableEq, Repr

/-- The descending-by-id ordering used by `Sort-Object -Property id
-Descending`. -/
def iterGE (a b : Iteration) : Prop := b.id ≤ a.id

instance : DecidableRel iterGE := fun a b => inferInstanceAs (Decidable (b.id ≤ a.id))

instance : IsTotal Iteration iterGE := ⟨fun a b => le_total b.id a.id⟩

instance : IsTrans Iteration iterGE := ⟨fun _ _ _ hab hbc => le_trans hbc hab⟩

/-- `Sort-Object -Property id -Descending` (a stable sort by id descending). -/
def sortDescById (its : List Iteration) : List Iteration :=
  List.insertionSort iterGE its

/-- `Sort-Object -Property id -Descending then Select-Object -First 1`
(line 191): the iteration used as latest. -/
def latestIteration (its : List Iteration) : Option Iteration :=
  (sortDescById its).head?

/-- The REST outcomes the script's four calls can see in one run. The
commit and change payloads are irrelevant to control flow beyond null-ness,
so they are carried as unit. -/
structure ChangesEnv where
  prResult : ApiOutcome Unit
  iterationsResult : ApiOutcome (List Iteration)
  commitsResult : ApiOutcome Unit
  changesResult : ApiOutcome Unit
deriving Repr

/-- The main flow of `Get-AzureDevOpsPRChanges.ps1` (lines 159 to 300):
exit code of the script and the error or warning messages written, in
order. A failed PR-detail call exits 1; a failed (or empty) iteration
call warns and exits 0; failed commit or change calls write their error
message and the script carries on to a normal exit 0. -/
def getPRChangesScript (env : ChangesEnv) : Int × List ApiMessage :=
  let pr := invokeAzureDevOpsApi env.prResult
  match pr.1 with
  | none => (1, pr.2)
  | some _ =>
    let iterations := invokeAzureDevOpsApi env.iterationsResult
    match iterations.1 with
    | none => (0, pr.2 ++ iterations.2 ++ [.warnNoIterations])
    | some its =>
      if its.length = 0 then (0, pr.2 ++ iterations.2 ++ [.warnNoIterations])
      else
        let commits := invokeAzureDevOpsApi env.commitsResult
        let changes := invokeAzureDevOpsApi env.changesResult
        (0, pr.2 ++ iterations.2 ++ commits.2 ++ changes.2)

/-! ## Trace observations -/

/-- Is this event the start of the review CLI? -/
def isSpawnReview : Event → Bool
  | .spawnReview _ _ => true
  | _ => false

/-- Is this event the start of a context-fetch PowerShell script? -/
def isSpawnScript : Event → Bool
  | .spawnScript _ => true
  | _ => false

/-- Is this event the start of any subprocess? -/
def isSpawn : Event → Bool
  | .spawnSync _ _ => true
  | .spawnInstall _ _ => true
  | .spawnScript _ => true
  | .spawnReview _ _ => true
  | _ => false

/-- The trace contains a review-CLI start. -/
def hasSpawnReview (t : List Event) : Bool := t.any isSpawnReview

/-- The trace contains a context-fetch script start. -/
def hasSpawnScript (t : List Event) : Bool := t.any isSpawnScript

/-! ## C8: selection of the latest iteration -/

/-- **C8.** For every non-empty iteration list, the iteration selected as
latest (sort by id descending, take the first) is a member of the list with
the greatest identifier. -/
theorem c8_latest_iteration (its : List Iteration) (h : its ≠ []) :
    ∃ it, latestIteration its = some it ∧ it ∈ its ∧ ∀ x ∈ its, x.id ≤ it.id := by
  have hperm : List.Perm (sortDescById its) its :=
    List.perm_insertionSort iterGE its
  have hsorted : List.Sorted iterGE (sortDescById its) :=
    List.sorted_insertionSort iterGE its
  cases hs : sortDescById its with
  | nil =>
    exact absurd ((hs ▸ hperm).symm.eq_nil) h
  | cons hd tl =>
    refine ⟨hd, ?_, ?_, ?_⟩
    · simp [latestIteration, hs]
    · exact hperm.mem_iff.mp (hs ▸ List.mem_cons_self hd tl)
    · intro x hx
      have hx' : x ∈ hd :: tl := hs ▸ hperm.mem_iff.mpr hx
      rcases List.mem_cons.mp hx' with rfl | hx''
      · exact le_refl _
      · have := hs ▸ hsorted
        exact (List.sorted_cons.mp this).1 x hx''

/-- Witness for C8 at the spec's round-trip example: among the iterations
with ids 1, 3, 2 the selected latest has id 3. -/
theorem c8_latest_iteration_witness :
    ([⟨1⟩, ⟨3⟩, ⟨2⟩] : List Iteration) ≠ []
  ∧ (∃ it, latestIteration [⟨1⟩, ⟨3⟩, ⟨2⟩] = some it ∧ it ∈ ([⟨1⟩, ⟨3⟩, ⟨2⟩] : List Iteration)
        ∧ ∀ x ∈ ([⟨1⟩, ⟨3⟩, ⟨2⟩] : List Iteration), x.id ≤ it.id)
  ∧ latestIteration [⟨1⟩, ⟨3⟩, ⟨2⟩] = some ⟨3⟩ :=
  ⟨by decide, c8_latest_iteration [⟨1⟩, ⟨3⟩, ⟨2⟩] (by decide), by decide⟩

/-! ## C9: classification of host-API failures -/

/-- **C9 (amended).** Every failed host-API call in
`Get-AzureDevOpsPRChanges.ps1` is classified by status code into exactly
one of three message kinds (401 auth guidance, 404 not-found guidance,
other generic with body and status), and a 404 message is distinguishable
from a 401 message. Only a failed PR-detail call aborts the script (exit
code 1 with the classified message): whenever the PR-detail call succeeds
the script exits 0, in particular a failed iterations call ends it with
exit code 0 after the classified message and a warning, and failed commits
or changes calls do not stop the script, which completes with exit code 0
carrying their classified messages. -/
theorem c9_classification (s : Int) (b : String) :
    (s = 401 → classifyStatus s b = .authFailed)
  ∧ (s = 404 → classifyStatus s b = .notFound)
  ∧ (s ≠ 401 → s ≠ 404 → classifyStatus s b = .generic b s)
  ∧ ApiMessage.notFound ≠ ApiMessage.authFailed
  ∧ (∀ env : ChangesEnv, env.prResult = .httpError s b →
       getPRChangesScript env = (1, [classifyStatus s b]))
  ∧ (∀ env : ChangesEnv, env.prResult = .ok () → env.iterationsResult = .httpError s b →
       getPRChangesScript env = (0, [classifyStatus s b, .warnNoIterations]))
  ∧ (∀ env : ChangesEnv, env.prResult = .ok () → (getPRChangesScript env).1 = 0)
  ∧ (∀ (env : ChangesEnv) (its : List Iteration), env.prResult = .ok () →
       env.iterationsResult = .ok its → its.length ≠ 0 →
       getPRChangesScript env =
         (0, (invokeAzureDevOpsApi env.commitsResult).2 ++
             (invokeAzureDevOpsApi env.changesResult).2)) := by
  refine ⟨?_, ?_, ?_, ?_, ?_, ?_, ?_, ?_⟩
  · intro h; simp [classifyStatus, h]
  · intro h
    subst h
    simp [classifyStatus]
  · intro h1 h2; simp [classifyStatus, h1, h2]
  · simp
  · intro env h
    simp [getPRChangesScript, invokeAzureDevOpsApi, h]
  · intro env h1 h2
    simp [getPRChangesScript, invokeAzureDevOpsApi, h1, h2]
  · intro env h
    cases hit : env.iterationsResult with
    | ok its =>
      by_cases hlen : its.length = 0 <;>
        simp [getPRChangesScript, invokeAzureDevOpsApi, h, hit, hlen]
    | httpError s' b' =>
      simp [getPRChangesScript, invokeAzureDevOpsApi, h, hit]
  · intro env its h hit hlen
    simp [getPRChangesScript, invokeAzureDevOpsApi, h, hit, hlen]

/-- Witness for C9: a 401 PR-detail failure exits 1 with the auth message;
a 404 iterations failure after a successful PR call exits 0; failed
commits and changes calls leave the script completing with exit code 0 and
their classified messages. -/
theorem c9_classification_witness :
    classifyStatus 401 "denied" = .authFailed
  ∧ getPRChangesScript
      { prResult := .httpError 401 "denied", iterationsResult := .ok [],
        commitsResult := .ok (), changesResult := .ok () } = (1, [ApiMessage.authFailed])
  ∧ getPRChangesScript
      { prResult := .ok (), iterationsResult := .httpError 404 "missing",
        commitsResult := .ok (), changesResult := .ok () } = (0, [ApiMessage.notFound, .warnNoIterations])
  ∧ (getPRChangesScript
      { prResult := .ok (), iterationsResult := .ok [⟨1⟩],
        commitsResult := .httpError 500 "server error",
        changesResult := .httpError 404 "gone" }).1 = 0
  ∧ getPRChangesScript
      { prResult := .ok (), iterationsResult := .ok [⟨1⟩],
        commitsResult := .httpError 500 "server error",
        changesResult := .httpError 404 "gone" } =
      (0, [ApiMessage.generic "server error" 500, ApiMessage.notFound]) := by
  refine ⟨(c9_classification 401 "denied").1 rfl, ?_, ?_, ?_, ?_⟩
  · have h := (c9_classification 401 "denied").2.2.2.2.1
      { prResult := .httpError 401 "denied", iterationsResult := .ok [],
        commitsResult := .ok (), changesResult := .ok () } rfl
    simpa [classifyStatus] using h
  · have h := (c9_classification 404 "missing").2.2.2.2.2.1
      { prResult := .ok (), iterationsResult := .httpError 404 "missing",
        commitsResult := .ok (), changesResult := .ok () } rfl rfl
    simpa [classifyStatus] using h
  · exact (c9_classification 0 "").2.2.2.2.2.2.1
      { prResult := .ok (), iterationsResult := .ok [⟨1⟩],
        commitsResult := .httpError 500 "server error",
        changesResult := .httpError 404 "gone" } rfl
  · have h := (c9_classification 0 "").2.2.2.2.2.2.2
      { prResult := .ok (), iterationsResult := .ok [⟨1⟩],
        commitsResult := .httpError 500 "server error",
        changesResult := .httpError 404 "gone" } [⟨1⟩] rfl rfl (by decide)
    simpa [invokeAzureDevOpsApi, classifyStatus] using h

/-- The concrete run refuting C9 as stated: the iterations call fails with
HTTP 404, yet the script finishes with exit code 0, so the failed call does
not abort the run (the task treats a zero script exit as success). -/
def c9Env : ChangesEnv :=
  { prResult := .ok ()
    iterationsResult := .httpError 404 "The requested resource does not exist."
    commitsResult := .ok ()
    changesResult := .ok () }

/-- **C9 counterexample.** A failed host-API call (HTTP 404 on the
iterations fetch) after which the script exits 0: the failure is classified
but does not abort the run. -/
theorem c9_counterexample :
    (getPRChangesScript c9Env).1 = 0
  ∧ c9Env.iterationsResult = .httpError 404 "The requested resource does not exist."
  ∧ (getPRChangesScript c9Env).2 = [ApiMessage.notFound, .warnNoIterations] := by
  decide

/-! ## The author gate (C2, C6, C10) -/

/-- After a passing preflight, the run is the author-gate stage applied to
the probe-only trace. -/
lemma run_eq_gate (e : RunEnv) (hpwsh : e.pwshOk = true)
    (hnode : ¬(e.windows = false ∧ nodeMajorOf e.nodeVersion < 22)) :
    run e = stageAuthorGate e [Event.spawnSync "pwsh" ["--version"]] := by
  simp [run, hpwsh, hnode]

/-- The author list the gate compares against, as built at line 70. -/
def authorListOf (authors : String) : List String :=
  (jsSplitOn authors ",").map (fun email => jsToLower (jsTrim email))

/-- The requester value the gate compares, as built at lines 69 and 71. -/
def currentAuthorOf (e : RunEnv) : String :=
  jsToLower ((getVariable e.pipelineVars "Build.RequestedForEmail").getD "")

/-- The gate decision rewritten through `authorListOf` and
`currentAuthorOf`. -/
lemma stageAuthorGate_eq (e : RunEnv) (acc : List Event) (a : String)
    (ha : getInput e.inputs "authors" = some a) :
    stageAuthorGate e acc =
      if (authorListOf a).contains (currentAuthorOf e) then stageCreds e acc
      else acc ++ [Event.setResult .succeeded msgSkippedAuthor] := by
  simp [stageAuthorGate, ha, authorListOf, currentAuthorOf]

/-- **C6.** With an author allow-list configured, membership is decided by
comparing the lower-cased requester email with the trimmed, lower-cased
comma-separated entries: a member proceeds to the credential stage, a
non-member ends the run succeeded with the skip message, with no
context-fetch script and no review CLI ever spawned. -/
theorem c6_author_gate (e : RunEnv) (a : String)
    (hpwsh : e.pwshOk = true)
    (hnode : ¬(e.windows = false ∧ nodeMajorOf e.nodeVersion < 22))
    (ha : getInput e.inputs "authors" = some a) :
    ((authorListOf a).contains (currentAuthorOf e) = true →
        run e = stageCreds e [Event.spawnSync "pwsh" ["--version"]])
  ∧ ((authorListOf a).contains (currentAuthorOf e) = false →
        run e = [Event.spawnSync "pwsh" ["--version"], Event.setResult .succeeded msgSkippedAuthor]
      ∧ hasSpawnScript (run e) = false
      ∧ hasSpawnReview (run e) = false) := by
  rw [run_eq_gate e hpwsh hnode, stageAuthorGate_eq e _ a ha]
  constructor
  · intro h; rw [if_pos h]
  · intro h
    rw [if_neg (by simpa using h)]
    refine ⟨rfl, ?_, ?_⟩ <;>
      simp [hasSpawnScript, hasSpawnReview, isSpawnScript, isSpawnReview]

/-- Lower-casing never turns a non-empty string empty or vice versa. -/
lemma jsToLower_eq_empty (s : String) : jsToLower s = "" ↔ s = "" := by
  obtain ⟨data⟩ := s
  constructor
  · intro h
    have hdata : data.map Char.toLower = [] := congrArg String.data h
    have : data = [] := by simpa using hdata
    simp [this]
  · intro h
    rw [h]
    rfl

/-- **C10.** With an allow-list configured and the requester-email variable
unavailable, the gate compares the empty string: the run proceeds to the
credential stage exactly when some comma-separated entry of the list trims
to the empty string, and otherwise ends succeeded-skipped. -/
theorem c10_empty_email_gate (e : RunEnv) (a : String)
    (hpwsh : e.pwshOk = true)
    (hnode : ¬(e.windows = false ∧ nodeMajorOf e.nodeVersion < 22))
    (ha : getInput e.inputs "authors" = some a)
    (hv : getVariable e.pipelineVars "Build.RequestedForEmail" = none) :
    ((authorListOf a).contains "" = true →
        run e = stageCreds e [Event.spawnSync "pwsh" ["--version"]])
  ∧ ((authorListOf a).contains "" = false →
        run e = [Event.spawnSync "pwsh" ["--version"], Event.setResult .succeeded msgSkippedAuthor])
  ∧ ((authorListOf a).contains "" = true ↔ ∃ entry ∈ jsSplitOn a ",", jsTrim entry = "") := by
  have hcur : currentAuthorOf e = "" := by
    simp only [currentAuthorOf, hv, Option.getD_none]
    rfl
  have hrun := c6_author_gate e a hpwsh hnode ha
  rw [hcur] at hrun
  refine ⟨hrun.1, fun h => (hrun.2 h).1, ?_⟩
  simp only [authorListOf]
  constructor
  · intro h
    have hmem : "" ∈ (jsSplitOn a ",").map (fun email => jsToLower (jsTrim email)) :=
      List.elem_iff.mp h
    obtain ⟨entry, hmem', heq⟩ := List.mem_map.mp hmem
    exact ⟨entry, hmem', (jsToLower_eq_empty (jsTrim entry)).mp heq⟩
  · rintro ⟨entry, hmem, htrim⟩
    exact List.elem_iff.mpr (List.mem_map.mpr ⟨entry, hmem, by rw [htrim]; rfl⟩)

/-- **C2 (amended).** The author gate is evaluated right after the
environment preflight and before required-input resolution: with an
allow-list configured and a non-member requester, the run ends succeeded
with the skip message even when the required `githubPat` input is
unresolved, and the missing-input failure never surfaces. -/
theorem c2_gate_before_inputs (e : RunEnv) (a : String)
    (hpwsh : e.pwshOk = true)
    (hnode : ¬(e.windows = false ∧ nodeMajorOf e.nodeVersion < 22))
    (ha : getInput e.inputs "authors" = some a)
    (hskip : (authorListOf a).contains (currentAuthorOf e) = false)
    (_hpat : getInput e.inputs "githubPat" = none) :
    run e = [Event.spawnSync "pwsh" ["--version"], Event.setResult .succeeded msgSkippedAuthor]
  ∧ ∀ ev ∈ run e, ev ≠ Event.setResult .failed msgGithubPatRequired := by
  have h := ((c6_author_gate e a hpwsh hnode ha).2 hskip).1
  refine ⟨h, ?_⟩
  rw [h]
  decide

/-! ## C1: the double-quote prompt validation -/

/-- An element not satisfying `p` survives `dropWhile p`. -/
lemma mem_dropWhile_of_mem {α : Type} (p : α → Bool) (l : List α) (a : α)
    (hpa : p a = false) (ha : a ∈ l) : a ∈ l.dropWhile p := by
  induction l with
  | nil => cases ha
  | cons x xs ih =>
    by_cases hx : p x = true
    · rcases List.mem_cons.mp ha with rfl | hmem
      · rw [hpa] at hx; cases hx
      · simpa [List.dropWhile_cons, hx] using ih hmem
    · have hx' : p x = false := by simpa using hx
      simpa [List.dropWhile_cons, hx'] using ha

/-- A non-whitespace character survives trimming. -/
lemma jsContainsChar_jsTrim (s : String) (c : Char) (hw : c.isWhitespace = false)
    (h : jsContainsChar s c = true) : jsContainsChar (jsTrim s) c = true := by
  have hmem : c ∈ s.data := List.elem_iff.mp h
  have h1 : c ∈ s.data.dropWhile Char.isWhitespace :=
    mem_dropWhile_of_mem _ _ _ hw hmem
  have h2 : c ∈ (s.data.dropWhile Char.isWhitespace).reverse :=
    List.mem_reverse.mpr h1
  have h3 : c ∈ (s.data.dropWhile Char.isWhitespace).reverse.dropWhile Char.isWhitespace :=
    mem_dropWhile_of_mem _ _ _ hw h2
  have h4 : c ∈ ((s.data.dropWhile Char.isWhitespace).reverse.dropWhile Char.isWhitespace).reverse :=
    List.mem_reverse.mpr h3
  exact List.elem_iff.mpr h4

/-- The environments the prompt validation rejects: either the inline
prompt input contains a double quote, or the inline prompt is unset and the
prompt-file input names a regular file whose content contains one. -/
def quotedPromptEnv (e : RunEnv) : Prop :=
  (∃ p, getInput e.inputs "prompt" = some p ∧ jsContainsChar p '"' = true)
  ∨ (getInput e.inputs "prompt" = none
     ∧ ∃ f, getInput e.inputs "promptFile" = some f ∧ e.isRegularFile f = true
         ∧ jsContainsChar (e.readFile f) '"' = true)

/-- With a double-quoted inline prompt, prompt assembly ends the run with
the validation failure. -/
lemma stagePrompt_quote (e : RunEnv) (acc : List Event) (c : Config) (p : String)
    (hc : c.prompt = some p) (hq : jsContainsChar p '"' = true) :
    stagePrompt e acc c = acc ++ [Event.setResult .failed msgPromptQuoteInline] := by
  simp [stagePrompt, selectPrompt, hc, hq]

/-- With no inline prompt and a selected prompt file whose content contains
a double quote, prompt assembly ends the run with the prompt-file
validation failure. -/
lemma stagePrompt_quoteFile (e : RunEnv) (acc : List Event) (c : Config) (f : String)
    (hc : c.prompt = none) (hf : c.promptFile = some f)
    (hreg : e.isRegularFile f = true) (hq : jsContainsChar (e.readFile f) '"' = true) :
    stagePrompt e acc c = acc ++ [Event.setResult .failed (msgPromptQuoteFile f)] := by
  have htr : jsContainsChar (jsTrim (e.readFile f)) '"' = true :=
    jsContainsChar_jsTrim _ _ (by decide) hq
  have hne : jsTrim (e.readFile f) ≠ "" := by
    intro h0
    rw [h0] at htr
    exact absurd htr (by decide)
  simp [stagePrompt, selectPrompt, hc, hf, hreg, hne, htr]

/-- On a quoted prompt (either source), prompt assembly adds no review
spawn. -/
lemma stagePrompt_quoted_noReview (e : RunEnv) (acc : List Event) (c : Config)
    (hc : c.prompt = getInput e.inputs "prompt")
    (hf : c.promptFile = getInput e.inputs "promptFile")
    (hq : quotedPromptEnv e) :
    hasSpawnReview (stagePrompt e acc c) = hasSpawnReview acc := by
  rcases hq with ⟨p, hp, hpq⟩ | ⟨hpnone, f, hpf, hreg, hfq⟩
  · rw [stagePrompt_quote e acc c p (hc.trans hp) hpq]
    simp [hasSpawnReview, isSpawnReview, List.any_append]
  · rw [stagePrompt_quoteFile e acc c f (hc.trans hpnone) (hf.trans hpf) hreg hfq]
    simp [hasSpawnReview, isSpawnReview, List.any_append]

/-- On a quoted prompt, the fetch stage never reaches the review spawn. -/
lemma noReview_stageFetch (e : RunEnv) (acc : List Event) (c : Config)
    (hc : c.prompt = getInput e.inputs "prompt")
    (hf : c.promptFile = getInput e.inputs "promptFile")
    (hq : quotedPromptEnv e) :
    hasSpawnReview (stageFetch e acc c) = hasSpawnReview acc := by
  simp only [stageFetch]
  split
  · simp [hasSpawnReview, runPowerShellScriptModel, isSpawnReview, List.any_append]
  · split
    · simp [hasSpawnReview, runPowerShellScriptModel, isSpawnReview, List.any_append]
    · rw [stagePrompt_quoted_noReview e _ c hc hf hq]
      simp [hasSpawnReview, runPowerShellScriptModel, isSpawnReview, List.any_append]

/-- On a quoted prompt, the tool-provisioning stage never reaches the
review spawn. -/
lemma noReview_stageTool (e : RunEnv) (acc : List Event) (c : Config)
    (hc : c.prompt = getInput e.inputs "prompt")
    (hf : c.promptFile = getInput e.inputs "promptFile")
    (hq : quotedPromptEnv e) :
    hasSpawnReview (stageTool e acc c) = hasSpawnReview acc := by
  simp only [stageTool]
  split
  · rw [noReview_stageFetch e _ c hc hf hq]
    simp [hasSpawnReview, isSpawnReview, List.any_append]
  · split
    · split
      · rw [noReview_stageFetch e _ c hc hf hq]
        simp [hasSpawnReview, isSpawnReview, List.any_append]
      · simp [hasSpawnReview, isSpawnReview, List.any_append]
    · simp [hasSpawnReview, isSpawnReview, List.any_append]

/-- On a quoted prompt, the optional-inputs stage never reaches the review
spawn. -/
lemma noReview_stageOptional (e : RunEnv) (acc : List Event)
    (token authType organization project repository : String)
    (hq : quotedPromptEnv e) :
    hasSpawnReview (stageOptional e acc token authType organization project repository) =
      hasSpawnReview acc := by
  simp only [stageOptional]
  split
  · simp [hasSpawnReview, isSpawnReview, List.any_append]
  · exact noReview_stageTool e acc _ rfl rfl hq

/-- On a quoted prompt, the identifier stage never reaches the review
spawn. -/
lemma noReview_stageIdentifiers (e : RunEnv) (acc : List Event) (token authType : String)
    (hq : quotedPromptEnv e) :
    hasSpawnReview (stageIdentifiers e acc token authType) = hasSpawnReview acc := by
  simp only [stageIdentifiers]
  split
  · simp [hasSpawnReview, isSpawnReview, List.any_append]
  · split
    · simp [hasSpawnReview, isSpawnReview, List.any_append]
    · split
      · simp [hasSpawnReview, isSpawnReview, List.any_append]
      · exact noReview_stageOptional e acc _ _ _ _ _ hq

/-- On a quoted prompt, the credential stage never reaches the review
spawn. -/
lemma noReview_stageCreds (e : RunEnv) (acc : List Event)
    (hq : quotedPromptEnv e) :
    hasSpawnReview (stageCreds e acc) = hasSpawnReview acc := by
  simp only [stageCreds]
  split
  · simp [hasSpawnReview, isSpawnReview, List.any_append]
  · split
    · split
      · simp [hasSpawnReview, isSpawnReview, List.any_append]
      · exact noReview_stageIdentifiers e acc _ _ hq
    · split
      · exact noReview_stageIdentifiers e acc _ _ hq
      · simp [hasSpawnReview, isSpawnReview, List.any_append]

/-- On a quoted prompt, the author gate never reaches the review spawn. -/
lemma noReview_stageAuthorGate (e : RunEnv) (acc : List Event)
    (hq : quotedPromptEnv e) :
    hasSpawnReview (stageAuthorGate e acc) = hasSpawnReview acc := by
  simp only [stageAuthorGate]
  split
  · split
    · exact noReview_stageCreds e acc hq
    · simp [hasSpawnReview, isSpawnReview, List.any_append]
  · exact noReview_stageCreds e acc hq

/-- On a quoted prompt (either source), no run ever spawns the review CLI. -/
lemma noReview_run (e : RunEnv) (hq : quotedPromptEnv e) :
    hasSpawnReview (run e) = false := by
  simp only [run]
  split
  · simp [hasSpawnReview, isSpawnReview]
  · split
    · simp [hasSpawnReview, isSpawnReview]
    · rw [noReview_stageAuthorGate e _ hq]
      simp [hasSpawnReview, isSpawnReview]

/-- **C1 (amended).** For every prompt text containing a double quote —
an inline prompt input, or the content of the selected prompt file when no
inline prompt is set — the review CLI is never started, and whenever the
run reaches prompt assembly it ends with the corresponding double-quote
validation failure. (The install-check probe, the installer and both
context-fetch scripts may already have been spawned before the validation
runs.) -/
theorem c1_no_review_on_quoted_prompt (e : RunEnv) :
    (∀ p, getInput e.inputs "prompt" = some p → jsContainsChar p '"' = true →
        hasSpawnReview (run e) = false
      ∧ ∀ (acc : List Event) (c : Config), c.prompt = some p →
          stagePrompt e acc c = acc ++ [Event.setResult .failed msgPromptQuoteInline])
  ∧ (∀ f, getInput e.inputs "prompt" = none → getInput e.inputs "promptFile" = some f →
        e.isRegularFile f = true → jsContainsChar (e.readFile f) '"' = true →
        hasSpawnReview (run e) = false
      ∧ ∀ (acc : List Event) (c : Config), c.prompt = none → c.promptFile = some f →
          stagePrompt e acc c = acc ++ [Event.setResult .failed (msgPromptQuoteFile f)]) := by
  constructor
  · intro p hp hpq
    exact ⟨noReview_run e (Or.inl ⟨p, hp, hpq⟩),
      fun acc c hc => stagePrompt_quote e acc c p hc hpq⟩
  · intro f hpnone hpf hreg hfq
    exact ⟨noReview_run e (Or.inr ⟨hpnone, f, hpf, hreg, hfq⟩),
      fun acc c hc hf => stagePrompt_quoteFile e acc c f hc hf hreg hfq⟩

/-! ## Concrete environments for counterexamples and witnesses -/

/-- A fully provisioned Windows environment in which every subprocess
succeeds promptly; the concrete scenarios below override its inputs and
variables. -/
def baseEnv : RunEnv :=
  { inputs := fun _ => none
    pipelineVars := fun _ => none
    pwshOk := true
    windows := true
    nodeVersion := "v22.1.0"
    dirname := "/task"
    cwd := "/work"
    copilotOk := true
    installOutcome := .code 0
    script1Outcome := .code 0
    script2Outcome := .code 0
    isRegularFile := fun _ => false
    readFile := fun _ => ""
    review := { endsAtMs := 60000, outcome := .code 0 } }

/-- Inputs with credentials and identifiers present and an inline prompt
that contains a double quote. -/
def c1Env : RunEnv :=
  { baseEnv with
    inputs := fun n =>
      if n = "githubPat" then some "ghp-token" else
      if n = "azureDevOpsPat" then some "ado-token" else
      if n = "organization" then some "contoso" else
      if n = "project" then some "webapp" else
      if n = "repository" then some "frontend" else
      if n = "pullRequestId" then some "42" else
      if n = "prompt" then some "say \"hi\"" else
      none }

/-- **C1 counterexample.** With a double-quoted inline prompt the run does
end with the validation failure, but only after the install-check probe and
both context-fetch scripts were spawned, refuting the claim that no
subprocess starts before that failure. -/
theorem c1_counterexample :
    (run c1Env).getLast? = some (Event.setResult .failed msgPromptQuoteInline)
  ∧ Event.spawnSync "copilot" ["--version"] ∈ run c1Env
  ∧ hasSpawnScript (run c1Env) = true := by
  decide

/-- An allow-list that does not contain the requester, with the required
`githubPat` input absent. -/
def c2Env : RunEnv :=
  { baseEnv with
    inputs := fun n => if n = "authors" then some "alice@example.com" else none
    pipelineVars := fun n =>
      if n = "Build.RequestedForEmail" then some "bob@example.com" else none }

/-- **C2 counterexample.** The author gate decides the run (a skip) while
the required `githubPat` input is still unresolved: input resolution has
not completed before the gate is evaluated. -/
theorem c2_counterexample :
    getInput c2Env.inputs "githubPat" = none
  ∧ run c2Env = [Event.spawnSync "pwsh" ["--version"],
      Event.setResult .succeeded msgSkippedAuthor] := by
  decide

/-- Credentials and organization present, the `project` input absent while
the ambient `System.TeamProject` variable is available. -/
def c3Env : RunEnv :=
  { baseEnv with
    inputs := fun n =>
      if n = "githubPat" then some "ghp-token" else
      if n = "azureDevOpsPat" then some "ado-token" else
      if n = "organization" then some "contoso" else
      none
    pipelineVars := fun n =>
      if n = "System.TeamProject" then some "MyProject" else none }

/-- **C3 counterexample.** With the `project` input absent, the run fails
with the project-missing message even though the ambient
`System.TeamProject` variable is available: no fallback is attempted for
the project identifier. -/
theorem c3_counterexample :
    c3Env.pipelineVars "System.TeamProject" = some "MyProject"
  ∧ getInput c3Env.inputs "project" = none
  ∧ run c3Env = [Event.spawnSync "pwsh" ["--version"],
      Event.setResult .failed msgProjectRequired] := by
  decide

/-- **C3 (amended).** Only the organization identifier has a fallback, the
regex parse of `System.CollectionUri` (the `dev.azure.com` form first, then
the `visualstudio.com` form); when the `project` or `repository` input is
absent the run fails immediately with that field's message, consulting no
ambient variable. -/
theorem c3_fallback_organization_only (e : RunEnv) (acc : List Event) (token authType : String) :
    (∀ uri, getInput e.inputs "organization" = none →
        getVariable e.pipelineVars "System.CollectionUri" = some uri →
        resolvedOrganization e = (match captureDevAzure uri with
          | some o => some o
          | none => captureVsts uri))
  ∧ (∀ o, resolvedOrganization e = some o → getInput e.inputs "project" = none →
        stageIdentifiers e acc token authType = acc ++ [Event.setResult .failed msgProjectRequired])
  ∧ (∀ o p, resolvedOrganization e = some o → getInput e.inputs "project" = some p →
        getInput e.inputs "repository" = none →
        stageIdentifiers e acc token authType = acc ++ [Event.setResult .failed msgRepoRequired])
  ∧ (resolvedOrganization e = none →
        stageIdentifiers e acc token authType = acc ++ [Event.setResult .failed msgOrgRequired]) := by
  refine ⟨?_, ?_, ?_, ?_⟩
  · intro uri h1 h2
    simp [resolvedOrganization, h1, h2]
  · intro o ho hp
    simp [stageIdentifiers, ho, hp]
  · intro o p ho hp hr
    simp [stageIdentifiers, ho, hp, hr]
  · intro ho
    simp [stageIdentifiers, ho]

/-! ## C4 and C5: prompt assembly -/

/-- **C4.** Every resolved custom prompt is merged into the instruction
template and written to the `_copilot_prompt.txt` file in the working
directory, and the review invocation receives that file's path only: the
command passed to the review shell is `buildPsCommand path model`, a function
of the path and the model alone, so the prompt text never appears as an
inline argument of the spawned command. -/
theorem c4_prompt_via_file (e : RunEnv) (acc : List Event) (c : Config) (t : String)
    (h : selectPrompt c.prompt c.promptFile e.isRegularFile e.readFile = .custom t) :
    stagePrompt e acc c =
      stageCopy e (acc ++ [Event.writeFile (workingDirOf e ++ "/_copilot_prompt.txt")
          (replaceFirst (e.readFile (e.dirname ++ "/scripts" ++ "/prompt-custom.txt"))
            "%CUSTOMPROMPT%" t)]) c
        (workingDirOf e ++ "/_copilot_prompt.txt")
  ∧ ∀ (acc2 : List Event) (path : String),
      ∃ rest, stageReview e acc2 c path =
        acc2 ++ [Event.spawnReview "pwsh" ["-NoProfile", "-Command", buildPsCommand path c.model]]
          ++ rest := by
  constructor
  · simp [stagePrompt, h]
  · intro acc2 path
    rcases hr : runCopilotCliModel (c.timeoutMinutes.map (· * 60000)) e.review with ⟨res, sig⟩
    cases res with
    | ok =>
      exact ⟨[Event.setResult .succeeded msgSuccess], by simp [stageReview, hr]⟩
    | error m =>
      cases sig with
      | false =>
        exact ⟨[Event.setResult .failed ("Task failed: " ++ m)], by simp [stageReview, hr]⟩
      | true =>
        exact ⟨[Event.sigterm, Event.setResult .failed ("Task failed: " ++ m)],
          by simp [stageReview, hr]⟩

/-- **C5.** Prompt selection is first-match-wins: a valid inline prompt
wins over any prompt file; with no inline prompt a nonexistent (or unset)
prompt-file path selects the bundled default; an existing, non-empty,
quote-free prompt file is used (trimmed) when no inline prompt is set; and
on the default selection the run proceeds with the bundled `prompt.txt`
path directly, with no placeholder substitution and no prompt file
written. -/
theorem c5_prompt_precedence :
    (∀ (p : String) (pf : Option String) (isFile : String → Bool) (rf : String → String),
        jsContainsChar p '"' = false → selectPrompt (some p) pf isFile rf = .custom p)
  ∧ (∀ (f : String) (isFile : String → Bool) (rf : String → String),
        isFile f = false → selectPrompt none (some f) isFile rf = .bundledDefault)
  ∧ (∀ (isFile : String → Bool) (rf : String → String),
        selectPrompt none none isFile rf = .bundledDefault)
  ∧ (∀ (f : String) (isFile : String → Bool) (rf : String → String),
        isFile f = true → jsTrim (rf f) ≠ "" → jsContainsChar (jsTrim (rf f)) '"' = false →
        selectPrompt none (some f) isFile rf = .custom (jsTrim (rf f)))
  ∧ (∀ (e : RunEnv) (acc : List Event) (c : Config),
        selectPrompt c.prompt c.promptFile e.isRegularFile e.readFile = .bundledDefault →
        stagePrompt e acc c = stageCopy e acc c (e.dirname ++ "/scripts" ++ "/prompt.txt")) := by
  refine ⟨?_, ?_, ?_, ?_, ?_⟩
  · intro p pf isFile rf hq
    simp [selectPrompt, hq]
  · intro f isFile rf hf
    simp [selectPrompt, hf]
  · intro isFile rf
    simp [selectPrompt]
  · intro f isFile rf hf hne hq
    simp [selectPrompt, hf, hne, hq]
  · intro e acc c h
    simp [stagePrompt, h]

/-! ## C7: the review timeout race -/

/-- **C7.** The review subprocess is raced against the configured wall
clock, defaulting to 15 minutes when the `timeout` input is absent: a
subprocess that exits non-zero before the deadline fails the run with the
exit-code error and no signal, one still running at the deadline is sent
SIGTERM and the run fails with the timeout error naming the configured
minutes; in the run's trace the SIGTERM event follows the review spawn and
precedes the failure result. -/
theorem c7_timeout_race (e : RunEnv) (ht : getInput e.inputs "timeout" = none) :
    resolvedTimeoutMinutes e = some 15
  ∧ (∀ (m : Int) (b : ReviewBehavior), 1 ≤ m →
       ((b.endsAtMs : Int) < m * 60000 →
          ∀ cd : Int, b.outcome = .code cd → cd ≠ 0 →
          runCopilotCliModel (some (m * 60000)) b =
            (.error ("Copilot CLI exited with code: " ++ toString cd), false))
     ∧ (¬((b.endsAtMs : Int) < m * 60000) →
          runCopilotCliModel (some (m * 60000)) b =
            (.error ("Copilot review timed out after " ++ toString m ++ " minutes"), true)))
  ∧ (∀ (acc : List Event) (c : Config) (path : String) (m' : String),
       runCopilotCliModel (c.timeoutMinutes.map (· * 60000)) e.review = (.error m', true) →
       stageReview e acc c path =
         acc ++ [Event.spawnReview "pwsh" ["-NoProfile", "-Command", buildPsCommand path c.model],
           Event.sigterm, Event.setResult .failed ("Task failed: " ++ m')]) := by
  refine ⟨?_, ?_, ?_⟩
  · rw [resolvedTimeoutMinutes, ht]
    decide
  · intro m b hm
    have h60 : (1 : Int) ≤ m * 60000 := by omega
    have hd : jsDelay (some (m * 60000)) = m * 60000 := by
      simp [jsDelay, h60]
    constructor
    · intro hlt cd hcd hcd0
      simp [runCopilotCliModel, hd, hlt, hcd, hcd0]
    · intro hge
      simp only [runCopilotCliModel, hd, hge, if_false, timeoutMinutesDisplay]
      rw [Int.mul_ediv_cancel m (by norm_num)]
  · intro acc c path m' hr
    simp [stageReview, hr]

/-! ## Witnesses -/

/-- The configuration the C1 witness evaluates prompt assembly on. -/
def c1Cfg : Config :=
  { azureDevOpsToken := "ado-token", azureDevOpsAuthType := "Basic",
    organization := "contoso", project := "webapp", repository := "frontend",
    pullRequestId := "42", timeoutMinutes := some 15, model := none,
    promptFile := none, prompt := some "say \"hi\"" }

/-- Environment for the prompt-file half of the C1 witness: no inline
prompt, and a selected prompt file whose content contains a double quote. -/
def c1bEnv : RunEnv :=
  { baseEnv with
    inputs := fun n =>
      if n = "githubPat" then some "ghp-token" else
      if n = "azureDevOpsPat" then some "ado-token" else
      if n = "organization" then some "contoso" else
      if n = "project" then some "webapp" else
      if n = "repository" then some "frontend" else
      if n = "pullRequestId" then some "42" else
      if n = "promptFile" then some "/prompts/review.txt" else
      none
    isRegularFile := fun p => p == "/prompts/review.txt"
    readFile := fun p => if p = "/prompts/review.txt" then "Review \"carefully\"." else "" }

/-- Configuration for the prompt-file half of the C1 witness. -/
def c1bCfg : Config :=
  { azureDevOpsToken := "ado-token", azureDevOpsAuthType := "Basic",
    organization := "contoso", project := "webapp", repository := "frontend",
    pullRequestId := "42", timeoutMinutes := some 15, model := none,
    promptFile := some "/prompts/review.txt", prompt := none }

/-- Witness for C1 at a double-quoted inline prompt and at a double-quoted
prompt-file content. -/
theorem c1_no_review_on_quoted_prompt_witness :
    getInput c1Env.inputs "prompt" = some "say \"hi\""
  ∧ jsContainsChar "say \"hi\"" '"' = true
  ∧ hasSpawnReview (run c1Env) = false
  ∧ stagePrompt c1Env [] c1Cfg = [] ++ [Event.setResult .failed msgPromptQuoteInline]
  ∧ jsContainsChar (c1bEnv.readFile "/prompts/review.txt") '"' = true
  ∧ hasSpawnReview (run c1bEnv) = false
  ∧ stagePrompt c1bEnv [] c1bCfg =
      [] ++ [Event.setResult .failed (msgPromptQuoteFile "/prompts/review.txt")] :=
  ⟨by decide, by decide,
   ((c1_no_review_on_quoted_prompt c1Env).1 "say \"hi\"" (by decide) (by decide)).1,
   ((c1_no_review_on_quoted_prompt c1Env).1 "say \"hi\"" (by decide) (by decide)).2 [] c1Cfg rfl,
   by decide,
   ((c1_no_review_on_quoted_prompt c1bEnv).2 "/prompts/review.txt" (by decide) (by decide)
      (by decide) (by decide)).1,
   ((c1_no_review_on_quoted_prompt c1bEnv).2 "/prompts/review.txt" (by decide) (by decide)
      (by decide) (by decide)).2 [] c1bCfg rfl rfl⟩

/-- Witness for C2 (amended): the gate skips while `githubPat` is absent. -/
theorem c2_gate_before_inputs_witness :
    run c2Env = [Event.spawnSync "pwsh" ["--version"], Event.setResult .succeeded msgSkippedAuthor]
  ∧ ∀ ev ∈ run c2Env, ev ≠ Event.setResult .failed msgGithubPatRequired :=
  c2_gate_before_inputs c2Env "alice@example.com" (by decide) (by decide) (by decide)
    (by decide) (by decide)

/-- Credentials present and a `dev.azure.com` collection URI available, the
organization input absent; used by the C3 witness for the fallback part. -/
def c3bEnv : RunEnv :=
  { baseEnv with
    inputs := fun n =>
      if n = "githubPat" then some "ghp-token" else
      if n = "azureDevOpsPat" then some "ado-token" else
      none
    pipelineVars := fun n =>
      if n = "System.CollectionUri" then some "https://dev.azure.com/contoso/" else none }

/-- Witness for C3 (amended): a missing project input fails immediately,
and the organization fallback is the CollectionUri regex parse. -/
theorem c3_fallback_organization_only_witness :
    stageIdentifiers c3Env [] "ado-token" "Basic" = [] ++ [Event.setResult .failed msgProjectRequired]
  ∧ resolvedOrganization c3bEnv = (match captureDevAzure "https://dev.azure.com/contoso/" with
      | some o => some o
      | none => captureVsts "https://dev.azure.com/contoso/") :=
  ⟨(c3_fallback_organization_only c3Env [] "ado-token" "Basic").2.1 "contoso" (by decide) (by decide),
   (c3_fallback_organization_only c3bEnv [] "ado-token" "Basic").1 "https://dev.azure.com/contoso/"
     (by decide) (by decide)⟩

/-- Environment for the C4 witness: the bundled custom-prompt template is
readable at its expected path. -/
def c4Env : RunEnv :=
  { baseEnv with
    readFile := fun p =>
      if p = "/task/scripts/prompt-custom.txt" then "Instructions: %CUSTOMPROMPT% End." else "" }

/-- Configuration for the C4 witness: a quote-free inline prompt. -/
def c4Cfg : Config :=
  { azureDevOpsToken := "ado-token", azureDevOpsAuthType := "Basic",
    organization := "contoso", project := "webapp", repository := "frontend",
    pullRequestId := "42", timeoutMinutes := some 15, model := none,
    promptFile := none, prompt := some "focus on security" }

/-- Witness for C4 at a concrete custom prompt. -/
theorem c4_prompt_via_file_witness :
    stagePrompt c4Env [] c4Cfg =
      stageCopy c4Env ([] ++ [Event.writeFile (workingDirOf c4Env ++ "/_copilot_prompt.txt")
          (replaceFirst (c4Env.readFile (c4Env.dirname ++ "/scripts" ++ "/prompt-custom.txt"))
            "%CUSTOMPROMPT%" "focus on security")]) c4Cfg
        (workingDirOf c4Env ++ "/_copilot_prompt.txt")
  ∧ ∃ rest, stageReview c4Env [] c4Cfg "/work/_copilot_prompt.txt" =
      [] ++ [Event.spawnReview "pwsh"
          ["-NoProfile", "-Command", buildPsCommand "/work/_copilot_prompt.txt" c4Cfg.model]]
        ++ rest :=
  ⟨(c4_prompt_via_file c4Env [] c4Cfg "focus on security" (by decide)).1,
   (c4_prompt_via_file c4Env [] c4Cfg "focus on security" (by decide)).2 []
     "/work/_copilot_prompt.txt"⟩

/-- Configuration for the C5 witness default-selection part. -/
def c5Cfg : Config :=
  { azureDevOpsToken := "ado-token", azureDevOpsAuthType := "Basic",
    organization := "contoso", project := "webapp", repository := "frontend",
    pullRequestId := "42", timeoutMinutes := some 15, model := none,
    promptFile := none, prompt := none }

/-- Witness for C5 at concrete prompt sources. -/
theorem c5_prompt_precedence_witness :
    selectPrompt (some "check style") (some "/prompts/custom.txt") (fun _ => true)
      (fun _ => "from file") = .custom "check style"
  ∧ selectPrompt none (some "/prompts/missing.txt") (fun _ => false) (fun _ => "")
      = .bundledDefault
  ∧ selectPrompt none (some "/prompts/custom.txt") (fun _ => true) (fun _ => " file prompt ")
      = .custom (jsTrim " file prompt ")
  ∧ stagePrompt baseEnv [] c5Cfg = stageCopy baseEnv [] c5Cfg
      (baseEnv.dirname ++ "/scripts" ++ "/prompt.txt") :=
  ⟨c5_prompt_precedence.1 "check style" (some "/prompts/custom.txt") (fun _ => true)
     (fun _ => "from file") (by decide),
   c5_prompt_precedence.2.1 "/prompts/missing.txt" (fun _ => false) (fun _ => "") (by decide),
   c5_prompt_precedence.2.2.2.1 "/prompts/custom.txt" (fun _ => true) (fun _ => " file prompt ")
     (by decide) (by decide) (by decide),
   c5_prompt_precedence.2.2.2.2 baseEnv [] c5Cfg (by decide)⟩

/-- Allow-list containing the requester case-insensitively. -/
def c6Env : RunEnv :=
  { baseEnv with
    inputs := fun n => if n = "authors" then some "Alice@Example.com, bob@example.com" else none
    pipelineVars := fun n =>
      if n = "Build.RequestedForEmail" then some "alice@EXAMPLE.com" else none }

/-- Allow-list not containing the requester. -/
def c6bEnv : RunEnv :=
  { baseEnv with
    inputs := fun n => if n = "authors" then some "carol@example.com" else none
    pipelineVars := fun n =>
      if n = "Build.RequestedForEmail" then some "mallory@example.com" else none }

/-- Witness for C6: a case-insensitive member proceeds, a non-member is
skipped with no fetch or review spawn. -/
theorem c6_author_gate_witness :
    run c6Env = stageCreds c6Env [Event.spawnSync "pwsh" ["--version"]]
  ∧ (run c6bEnv = [Event.spawnSync "pwsh" ["--version"],
        Event.setResult .succeeded msgSkippedAuthor]
      ∧ hasSpawnScript (run c6bEnv) = false
      ∧ hasSpawnReview (run c6bEnv) = false) :=
  ⟨(c6_author_gate c6Env "Alice@Example.com, bob@example.com" (by decide) (by decide)
      (by decide)).1 (by decide),
   (c6_author_gate c6bEnv "carol@example.com" (by decide) (by decide) (by decide)).2 (by decide)⟩

/-- Environment for the C7 witness: no timeout input, and a review process
that is still running when the 15-minute deadline fires. -/
def c7Env : RunEnv :=
  { baseEnv with review := { endsAtMs := 900000, outcome := .code 0 } }

/-- Configuration for the C7 witness, with the defaulted 15 minutes. -/
def c7Cfg : Config :=
  { azureDevOpsToken := "ado-token", azureDevOpsAuthType := "Basic",
    organization := "contoso", project := "webapp", repository := "frontend",
    pullRequestId := "42", timeoutMinutes := some 15, model := none,
    promptFile := none, prompt := none }

/-- Witness for C7: the default of 15 minutes, a non-zero early exit, a
timeout expiry with SIGTERM, and the resulting trace shape. -/
theorem c7_timeout_race_witness :
    resolvedTimeoutMinutes c7Env = some 15
  ∧ runCopilotCliModel (some (15 * 60000)) { endsAtMs := 100, outcome := .code 1 } =
      (.error ("Copilot CLI exited with code: " ++ toString (1 : Int)), false)
  ∧ runCopilotCliModel (some (15 * 60000)) { endsAtMs := 900000, outcome := .code 0 } =
      (.error ("Copilot review timed out after " ++ toString (15 : Int) ++ " minutes"), true)
  ∧ stageReview c7Env [] c7Cfg "/work/_copilot_prompt.txt" =
      [] ++ [Event.spawnReview "pwsh"
          ["-NoProfile", "-Command", buildPsCommand "/work/_copilot_prompt.txt" c7Cfg.model],
        Event.sigterm,
        Event.setResult .failed ("Task failed: " ++ "Copilot review timed out after 15 minutes")] :=
  ⟨(c7_timeout_race c7Env (by decide)).1,
   ((c7_timeout_race c7Env (by decide)).2.1 15 { endsAtMs := 100, outcome := .code 1 }
      (by norm_num)).1 (by decide) 1 rfl (by decide),
   ((c7_timeout_race c7Env (by decide)).2.1 15 { endsAtMs := 900000, outcome := .code 0 }
      (by norm_num)).2 (by decide),
   (c7_timeout_race c7Env (by decide)).2.2 [] c7Cfg "/work/_copilot_prompt.txt"
     "Copilot review timed out after 15 minutes" (by decide)⟩

/-- Allow-list with a trailing comma, so one entry trims to empty. -/
def c10Env : RunEnv :=
  { baseEnv with inputs := fun n => if n = "authors" then some "dev@example.com," else none }

/-- Witness for C10: with a trailing-comma allow-list and no requester
email variable, the run proceeds, and an entry indeed trims to empty. -/
theorem c10_empty_email_gate_witness :
    run c10Env = stageCreds c10Env [Event.spawnSync "pwsh" ["--version"]]
  ∧ ∃ entry ∈ jsSplitOn "dev@example.com," ",", jsTrim entry = "" :=
  ⟨(c10_empty_email_gate c10Env "dev@example.com," (by decide) (by decide) (by decide)
      (by decide)).1 (by decide),
   (c10_empty_email_gate c10Env "dev@example.com," (by decide) (by decide) (by decide)
      (by decide)).2.2.mp (by decide)⟩

end CopilotReview
